import Mathlib

/-!
Verification of the release-cache engine of `central-api`
(`src/pkg/ReleaseNoteService.go`), as a shallow embedding in Lean 4.

The Go code is embedded as pure functions over explicit state:
* the JSON payload handed to `UpdateReleases` is modelled after
  `json.Unmarshal` as an optional loosely-typed map (`Option Jmap`,
  `none` = unmarshal error);
* the release cache (`util.ReleaseCache`, an external collaborator whose
  code is outside `src/`) is modelled as an explicit `StoreVal` value
  threaded through the functions;
* Go's unchecked type assertions (`x.(string)` …), which panic at
  runtime when the dynamic type does not match, are modelled by the
  `GoOutcome.panicked` result;
* `time.Time` is modelled by `GoTime`; `time.Parse` on the fixed layout
  `"2006-01-02T15:04:05.000Z"` is modelled by `parseGoTime`.
-/

/-- Calendar time, modelling Go `time.Time` at the granularity used by the
service (the layout string resolves down to milliseconds). -/
structure GoTime where
  year : Nat
  month : Nat
  day : Nat
  hour : Nat
  minute : Nat
  second : Nat
  millis : Nat
deriving DecidableEq, Repr

/-- Go's zero `time.Time` is January 1, year 1, 00:00:00 UTC. -/
def GoTime.zero : GoTime := ⟨1, 1, 1, 0, 0, 0, 0⟩

/-- Leap-year rule used by Go's `time` package (proleptic Gregorian). -/
def isLeapYear (y : Nat) : Bool :=
  y % 4 == 0 && (y % 100 != 0 || y % 400 == 0)

/-- Days in a month, as validated by Go `time.Parse`. -/
def daysInMonth (y m : Nat) : Nat :=
  if m == 2 then (if isLeapYear y then 29 else 28)
  else if m == 4 || m == 6 || m == 9 || m == 11 then 30
  else 31

/-- Numeric value of a decimal digit character, `none` on a non-digit. -/
def digitVal (c : Char) : Option Nat :=
  if c.isDigit then some (c.toNat - 48) else none

/-- Two-digit decimal field of a timestamp. -/
def num2 (a b : Char) : Option Nat := do
  let x ← digitVal a
  let y ← digitVal b
  pure (10 * x + y)

/-- Four-digit decimal field of a timestamp. -/
def num4 (a b c d : Char) : Option Nat := do
  let x ← num2 a b
  let y ← num2 c d
  pure (100 * x + y)

/-- Three-digit decimal field of a timestamp. -/
def num3 (a b c : Char) : Option Nat := do
  let x ← digitVal a
  let y ← num2 b c
  pure (100 * x + y)

/-- Modelled from the spec: Go `time.Parse` with the fixed layout
`"2006-01-02T15:04:05.000Z"` used at `src/pkg/ReleaseNoteService.go`
(the `time` package itself is outside the repository). The input must
be exactly `YYYY-MM-DDTHH:MM:SS.mmmZ` with in-range calendar fields;
any other input is a parse error (`none`). Go returns the zero
`time.Time` together with the error in that case; the caller in the
source logs the error and keeps the zero value, which is rendered here
as `(parseGoTime s).getD GoTime.zero`. -/
def parseGoTime (s : String) : Option GoTime :=
  match s.data with
  | [y1, y2, y3, y4, '-', m1, m2, '-', d1, d2, 'T',
     h1, h2, ':', i1, i2, ':', s1, s2, '.', f1, f2, f3, 'Z'] => do
      let y ← num4 y1 y2 y3 y4
      let mo ← num2 m1 m2
      let d ← num2 d1 d2
      let h ← num2 h1 h2
      let mi ← num2 i1 i2
      let se ← num2 s1 s2
      let f ← num3 f1 f2 f3
      if 1 ≤ mo && mo ≤ 12 && 1 ≤ d && d ≤ daysInMonth y mo
          && h ≤ 23 && mi ≤ 59 && se ≤ 59 then
        pure ⟨y, mo, d, h, mi, se, f⟩
      else
        none
  | _ => none

/-- The `common.Release` entity. The fields `tagName`, `releaseName`,
`body`, `createdAt`, `publishedAt` are the ones assigned in
`src/pkg/ReleaseNoteService.go`. Modelled from the spec: the remaining
fields `tagLink`, `prerequisite`, `prerequisiteMessage` of the
`common.Release` declaration (the `common` package is outside `src/`);
a Go struct literal leaves unmentioned fields at their zero values
(`""`, `false`). -/
structure Release where
  tagName : String
  releaseName : String
  body : String
  createdAt : GoTime
  publishedAt : GoTime
  tagLink : String
  prerequisite : Bool
  prerequisiteMessage : String
deriving DecidableEq, Repr

/-- A remote release record returned by the GitHub client
(`github.RepositoryRelease`). The source dereferences `TagName`, `Name`
and `Body` unconditionally — the remote contract assumes them present —
so they are plain strings here; `CreatedAt`/`PublishedAt` are the
embedded time values. -/
structure RemoteRelease where
  tagName : String
  name : String
  body : String
  createdAt : GoTime
  publishedAt : GoTime
deriving DecidableEq, Repr

/-- The dynamic value stored under the `"releases"` key of the cache's
item map: either a `[]*common.Release` (the only type the service ever
stores) or some other non-nil dynamic type, on which the unchecked
assertion `items.Object.([]*common.Release)` would panic. -/
inductive ItemObject where
  | releases (rs : List Release)
  | otherType
deriving DecidableEq

/-- Modelled from the spec: the opaque value returned by
`releaseCache.GetReleaseCache()` (the `util.ReleaseCache` collaborator
lives outside `src/`). The source observes it as: `nil`; non-nil but
not a `map[string]cache.Item` (the checked assertion fails); or an item
map whose `"releases"` entry has a `nil` `Object` (also covering a nil
map and a missing key, which Go treats identically here) or a non-nil
`Object`. -/
inductive StoreVal where
  | nilVal
  | notItemMap
  | itemMap (o : Option ItemObject)
deriving DecidableEq

/-- What the duplicated cache-reading block at the top of
`UpdateReleases` and `GetReleases` observes about the store. -/
inductive CacheRead where
  | assertFail
  | empty
  | badObject
  | releases (rs : List Release)
deriving DecidableEq

/-- The cache-reading block (`GetReleaseCache`, assertion to
`map[string]cache.Item`, lookup of `"releases"`, nil test on `Object`),
common to `UpdateReleases` and `GetReleases`. -/
def readCache : StoreVal → CacheRead
  | .nilVal => .empty
  | .notItemMap => .assertFail
  | .itemMap none => .empty
  | .itemMap (some .otherType) => .badObject
  | .itemMap (some (.releases rs)) => .releases rs

/-- Modelled from the spec: `releaseCache.UpdateReleaseCache(l)` (code
outside `src/`) stores `l` so that a subsequent `GetReleaseCache` yields
an item map whose `"releases"` item holds `l`. -/
def storeWith (l : List Release) : StoreVal :=
  .itemMap (some (.releases l))

/-- A loosely-typed JSON value, the image of `json.Unmarshal` into
`map[string]interface{}` (numbers become `float64`, modelled opaquely;
objects become `map[string]interface{}`). -/
inductive JValue where
  | str (s : String)
  | num (n : Int)
  | bool (b : Bool)
  | null
  | arr (xs : List JValue)
  | obj (fields : List (String × JValue))

/-- A decoded top-level JSON object (`map[string]interface{}`). -/
def Jmap := List (String × JValue)

/-- Go map indexing `m[k]`: the value, or the zero value (`nil`
interface, here `none`) when the key is absent. -/
def jlookup (m : Jmap) (k : String) : Option JValue :=
  (m.find? (fun p => p.1 == k)).map (fun p => p.2)

/-- The unchecked assertion `v.(string)`: `none` means the dynamic type
is not `string` (or the interface is nil), which panics in Go. -/
def asString : Option JValue → Option String
  | some (.str s) => some s
  | _ => none

/-- The unchecked assertion `v.(map[string]interface{})`. -/
def asObj : Option JValue → Option Jmap
  | some (.obj fs) => some fs
  | _ => none

/-- Outcome of running a Go function that may panic. -/
inductive GoOutcome (α : Type) where
  | ret (a : α)
  | panicked
deriving DecidableEq

/-- The `Release` built by `UpdateReleases` from the webhook fields: a
struct literal assigning `TagName`, `ReleaseName`, `Body` and
`CreatedAt` (the parse result, zero `time.Time` on parse error); every
other field — `PublishedAt` included — stays at its zero value. -/
def mkWebhookRelease (name tag created body : String) : Release :=
  { tagName := tag
    releaseName := name
    body := body
    createdAt := (parseGoTime created).getD GoTime.zero
    publishedAt := GoTime.zero
    tagLink := ""
    prerequisite := false
    prerequisiteMessage := "" }

/-- `UpdateReleases(requestBodyBytes)` of `ReleaseNoteServiceImpl`,
over the already-unmarshalled payload (`none` = `json.Unmarshal`
error) and the explicit cache state. Returns the `(bool, error)` pair
together with the resulting cache state, or `panicked` where the Go
code's unchecked type assertions panic. Mirrors the source order:
unmarshal check; `action` assertion; `action != "published"` test;
`release` assertion; `name`, `tag_name`, `created_at` assertions;
timestamp parse (error logged, zero kept); `body` assertion; cache
read (assertion failure returns `(false, nil)`); prepend of the new
release to the cached list; cache write under the mutex. -/
def updateReleases (decoded : Option Jmap) (s : StoreVal) :
    GoOutcome (Bool × Option String × StoreVal) :=
  match decoded with
  | none => .ret (false, some "json unmarshal error", s)
  | some data =>
    match asString (jlookup data "action") with
    | none => .panicked
    | some action =>
      if action ≠ "published" then .ret (false, none, s)
      else
        match asObj (jlookup data "release") with
        | none => .panicked
        | some releaseData =>
          match asString (jlookup releaseData "name") with
          | none => .panicked
          | some releaseName =>
            match asString (jlookup releaseData "tag_name") with
            | none => .panicked
            | some tagName =>
              match asString (jlookup releaseData "created_at") with
              | none => .panicked
              | some createdAtString =>
                match asString (jlookup releaseData "body") with
                | none => .panicked
                | some body =>
                  let releaseInfo :=
                    mkWebhookRelease releaseName tagName createdAtString body
                  match readCache s with
                  | .assertFail => .ret (false, none, s)
                  | .badObject => .panicked
                  | .empty => .ret (true, none, storeWith [releaseInfo])
                  | .releases rs =>
                      .ret (true, none, storeWith (releaseInfo :: rs))

/-- Mapping of one remote record to the `common.Release` DTO inside the
retry loop of `GetReleases`: a struct literal assigning `TagName`,
`ReleaseName`, `CreatedAt`, `PublishedAt`, `Body`; every other field —
`tagLink`, `prerequisite`, `prerequisiteMessage` included — stays at
its zero value. -/
def toDto (r : RemoteRelease) : Release :=
  { tagName := r.tagName
    releaseName := r.name
    body := r.body
    createdAt := r.createdAt
    publishedAt := r.publishedAt
    tagLink := ""
    prerequisite := false
    prerequisiteMessage := "" }

/-- The error returned by `GetReleases` when all retries fail. -/
def exhaustedMsg : String :=
  "failed operation on fetching releases from github, attempted 3 times"

/-- The observable outcome of `GetReleases`: the returned slice
(`none` = nil slice), the returned error, the final cache state, and
the number of `ListReleases` calls made (instrumentation of the
external-client effect). -/
structure FetchResult where
  releases : Option (List Release)
  err : Option String
  store : StoreVal
  calls : Nat
deriving DecidableEq

/-- The retry loop of `GetReleases`
(`for !operationComplete && retryCount < 3`), with `fuel` the number of
loop iterations still permitted (`3 - retryCount`) and `calls` the
number of `ListReleases` calls made so far. The external client is the
oracle `fetch`, indexed by the 1-based attempt number. An erroring
attempt `continue`s; a non-erroring attempt sets `operationComplete`,
maps the records to DTOs, assigns `releaseList` (a nil slice when no
records were appended, as in Go) and overwrites the cache under the
mutex before the loop condition is re-checked. When the fuel runs out
without a complete operation the function returns the (still nil)
list with the exhausted-retries error. -/
def fetchLoop (fetch : Nat → Except String (List RemoteRelease)) :
    Nat → Nat → StoreVal → FetchResult
  | 0, calls, st => ⟨none, some exhaustedMsg, st, calls⟩
  | fuel + 1, calls, st =>
    match fetch (calls + 1) with
    | .error _ => fetchLoop fetch fuel (calls + 1) st
    | .ok rs =>
        let releasesDto := rs.map toDto
        ⟨if releasesDto.isEmpty then none else some releasesDto,
         none, storeWith releasesDto, calls + 1⟩

/-- `GetReleases()` of `ReleaseNoteServiceImpl`, over the explicit
cache state and the external-client oracle `fetch`. Mirrors the source:
the cache-reading block (a failed item-map assertion returns the nil
list and nil error at once; a non-`[]*common.Release` object panics);
`append` of the cached entries (appending zero entries to a nil slice
leaves it nil, so an empty cached list also takes the cold path); if
the resulting `releaseList` is nil, the bounded retry loop; otherwise
the cached list is returned with no client call and no cache write. -/
def getReleases (s : StoreVal)
    (fetch : Nat → Except String (List RemoteRelease)) :
    GoOutcome FetchResult :=
  match readCache s with
  | .assertFail => .ret ⟨none, none, s, 0⟩
  | .badObject => .panicked
  | .empty => .ret (fetchLoop fetch 3 0 s)
  | .releases rs =>
      if rs.isEmpty then .ret (fetchLoop fetch 3 0 s)
      else .ret ⟨some rs, none, s, 0⟩

/-- `releaseList == nil` holds at the cold-path check of `GetReleases`:
the cache read contributed no entry. -/
def isCold (s : StoreVal) : Bool :=
  match readCache s with
  | .empty => true
  | .releases rs => rs.isEmpty
  | _ => false

/-- The decoded payload carries `action = "published"` and a `release`
object whose `name`, `tag_name`, `created_at` and `body` fields are the
given strings — the shape on which every type assertion of
`UpdateReleases` succeeds and the event is accepted. -/
def wellFormedRelease (m : Jmap) (name tag created body : String) : Prop :=
  jlookup m "action" = some (.str "published") ∧
  ∃ rm : Jmap, jlookup m "release" = some (.obj rm) ∧
    jlookup rm "name" = some (.str name) ∧
    jlookup rm "tag_name" = some (.str tag) ∧
    jlookup rm "created_at" = some (.str created) ∧
    jlookup rm "body" = some (.str body)

/-- The cached list that `UpdateReleases` will extend: `some rs` when
the cache read neither fails its assertion nor panics (an absent/empty
cache contributes the empty list). -/
def writableCache (s : StoreVal) : Option (List Release) :=
  match readCache s with
  | .empty => some []
  | .releases rs => some rs
  | _ => none

/-- A concrete webhook payload of the accepted shape, used by the
closed-form counterexamples and witnesses. -/
def mkPayload (action name tag created pub body : String) : Jmap :=
  [("action", .str action),
   ("release", .obj
     [("name", .str name), ("tag_name", .str tag),
      ("created_at", .str created), ("published_at", .str pub),
      ("body", .str body)])]

/-- A pre-existing cached release named `"v1"`, used by the concrete
counterexamples and witnesses. -/
def relV1 : Release :=
  { tagName := "t0", releaseName := "v1", body := "old-body",
    createdAt := GoTime.zero, publishedAt := GoTime.zero,
    tagLink := "", prerequisite := false, prerequisiteMessage := "" }

/-- A concrete remote record, used by the concrete counterexamples and
witnesses. -/
def rr1 : RemoteRelease :=
  { tagName := "v9.9", name := "remote-rel", body := "remote-body",
    createdAt := ⟨2023, 7, 8, 9, 10, 11, 0⟩,
    publishedAt := ⟨2023, 7, 8, 9, 10, 12, 0⟩ }

/-- The marker-containment test the spec's prerequisite contract speaks
of: the marker occurs somewhere in the body. (Stated via list infixes;
used only to formalise the spec-side contract — the source computes no
such thing.) -/
def occursIn (marker body : String) : Bool :=
  decide (marker.data <:+: body.data)

/-!
## Interleaving model for the concurrency claim

Each of the two mutating paths is decomposed into the atomic actions it
performs against the shared cache, in the order they appear in the
source:

* `UpdateReleases`: build the one-element list; `GetReleaseCache` and
  append the cached entries (outside the mutex); `mutex.Lock()`;
  `UpdateReleaseCache` (the write); unlock (deferred).
* `GetReleases`, cold path with a first successful attempt:
  `GetReleaseCache` and the nil test (outside the mutex); the
  `ListReleases` call and DTO mapping (outside the mutex);
  `mutex.Lock()`; `UpdateReleaseCache`; unlock (deferred).

A schedule is an interleaving of the two instruction lists; a `lock`
instruction can only run when the mutex is free, so a schedule that
runs to completion respects mutual exclusion.
-/

/-- One atomic action of one of the two threads (`w…` = webhook
`UpdateReleases`, `g…` = cold-path `GetReleases`). -/
inductive CInstr where
  | wRead (newRel : Release)
  | wLock
  | wWrite
  | wUnlock
  | gRead
  | gFetch (remote : List RemoteRelease)
  | gLock
  | gWrite
  | gUnlock
deriving DecidableEq

/-- Shared-memory system state for the interleaving model: the cache
(`none` = absent), whether the mutex is held, and each thread's local
`releaseList` (plus the fetch path's cold-check result). -/
structure ConcState where
  cache : Option (List Release)
  lockHeld : Bool
  wLocal : List Release
  gLocal : List Release
  gCold : Bool
deriving DecidableEq

/-- Semantics of one atomic action; `none` means the action is blocked
(taking a held mutex). The webhook thread's read appends the cached
entries after its new release, as `UpdateReleases` does; the fetch
thread's read records whether it saw an absent/empty cache, its fetch
maps the remote records to DTOs only on the cold path, and its
lock/write/unlock are skipped on the warm path (the warm path returns
before reaching them). -/
def cstep (s : ConcState) : CInstr → Option ConcState
  | .wRead nr => some { s with wLocal := nr :: s.cache.getD [] }
  | .wLock => if s.lockHeld then none else some { s with lockHeld := true }
  | .wWrite => some { s with cache := some s.wLocal }
  | .wUnlock => some { s with lockHeld := false }
  | .gRead =>
      some { s with gLocal := s.cache.getD [],
                    gCold := (s.cache.getD []).isEmpty }
  | .gFetch remote =>
      if s.gCold then some { s with gLocal := remote.map toDto } else some s
  | .gLock =>
      if s.gCold then
        if s.lockHeld then none else some { s with lockHeld := true }
      else some s
  | .gWrite => if s.gCold then some { s with cache := some s.gLocal } else some s
  | .gUnlock => if s.gCold then some { s with lockHeld := false } else some s

/-- Run a schedule of atomic actions from a state; `none` as soon as an
action blocks. -/
def crun (s : ConcState) : List CInstr → Option ConcState
  | [] => some s
  | i :: rest =>
    match cstep s i with
    | none => none
    | some s' => crun s' rest

/-- The webhook thread's instruction list, in source order: read and
append outside the mutex, then lock, write, unlock. -/
def wProg (newRel : Release) : List CInstr :=
  [.wRead newRel, .wLock, .wWrite, .wUnlock]

/-- The fetch thread's instruction list (cold path, one successful
attempt), in source order: read and nil-check, fetch and map — both
outside the mutex — then lock, write, unlock. -/
def gProg (remote : List RemoteRelease) : List CInstr :=
  [.gRead, .gFetch remote, .gLock, .gWrite, .gUnlock]

/-- Is this instruction one of the webhook thread's? -/
def CInstr.isW : CInstr → Bool
  | .wRead _ | .wLock | .wWrite | .wUnlock => true
  | _ => false

/-- A schedule is a valid interleaving of the two threads when its
webhook actions, in order, are exactly `wProg` and its fetch actions,
in order, are exactly `gProg`. -/
def isInterleaving (sched : List CInstr) (newRel : Release)
    (remote : List RemoteRelease) : Prop :=
  sched.filter (fun i => i.isW) = wProg newRel ∧
  sched.filter (fun i => !i.isW) = gProg remote

/-- The initial state: absent cache, mutex free, empty locals. -/
def concInit : ConcState := ⟨none, false, [], [], false⟩

/-- The release built by the webhook thread in the interleaving
scenario. -/
def relWh : Release :=
  { tagName := "tw", releaseName := "wh-rel", body := "wh-body",
    createdAt := GoTime.zero, publishedAt := GoTime.zero,
    tagLink := "", prerequisite := false, prerequisiteMessage := "" }

/-- The interleaved schedule that loses the webhook update: both
threads read the (absent) cache and compute before either takes the
mutex; the webhook thread then locks, writes its release and unlocks;
the fetch thread locks afterwards and overwrites the cache with the
collection it mapped from its stale read. -/
def schedLost : List CInstr :=
  [.wRead relWh, .gRead, .gFetch [rr1],
   .wLock, .wWrite, .wUnlock,
   .gLock, .gWrite, .gUnlock]

theorem updateReleases_wellFormed (m : Jmap) (s : StoreVal)
    (name tag created body : String) (rs : List Release)
    (h : wellFormedRelease m name tag created body)
    (hs : writableCache s = some rs) :
    updateReleases (some m) s
      = .ret (true, none,
          storeWith (mkWebhookRelease name tag created body :: rs)) := by
  obtain ⟨ha, rm, hr, hn, ht, hc, hb⟩ := h
  unfold writableCache at hs
  simp only [updateReleases, ha, hr, hn, ht, hc, hb, asString, asObj]
  cases hrc : readCache s <;> rw [hrc] at hs <;> simp_all

theorem updateReleases_assertFail (m : Jmap) (s : StoreVal)
    (name tag created body : String)
    (h : wellFormedRelease m name tag created body)
    (hs : readCache s = .assertFail) :
    updateReleases (some m) s = .ret (false, none, s) := by
  obtain ⟨ha, rm, hr, hn, ht, hc, hb⟩ := h
  simp only [updateReleases, ha, hr, hn, ht, hc, hb, hs, asString, asObj]
  simp

theorem occursIn_self (m : String) : occursIn m m = true := by
  simp [occursIn]

/-- C1. The claim: on an accepted webhook event whose release name
matches a cached entry, ingest overwrites that entry's body in place,
keeping the collection's length and order. The code does no such scan:
here a `"published"` event named `"v1"` hits a cache whose only entry
is also named `"v1"`, and the result is a two-element collection with
the new release prepended and the old entry intact — the length grew,
nothing was overwritten. -/
theorem C1_counterexample :
    updateReleases
        (some (mkPayload "published" "v1" "t1" "2024-01-02T03:04:05.000Z"
          "2024-01-02T03:04:05.000Z" "new-body"))
        (storeWith [relV1])
      = .ret (true, none,
          storeWith [mkWebhookRelease "v1" "t1" "2024-01-02T03:04:05.000Z"
            "new-body", relV1]) ∧
    [mkWebhookRelease "v1" "t1" "2024-01-02T03:04:05.000Z" "new-body",
      relV1].length ≠ [relV1].length := by
  exact ⟨rfl, by decide⟩

/-- C1 (amended). `UpdateReleases` never updates an entry in place: for
every accepted well-formed event and every readable cache content `rs`,
the new release is prepended at index 0 and all prior entries keep
their relative order and their contents unchanged — even when an entry
with the same `releaseName` already exists, which then becomes a
duplicate (the length always grows by one). -/
theorem C1_always_prepends (m : Jmap) (s : StoreVal)
    (name tag created body : String) (rs : List Release)
    (h : wellFormedRelease m name tag created body)
    (hs : writableCache s = some rs) :
    updateReleases (some m) s
      = .ret (true, none,
          storeWith (mkWebhookRelease name tag created body :: rs)) ∧
    (mkWebhookRelease name tag created body :: rs).length = rs.length + 1 := by
  exact ⟨updateReleases_wellFormed m s name tag created body rs h hs, rfl⟩

/-- C1 witness: the amended statement evaluated on a cache already
holding an entry named `"v1"` and an event also named `"v1"`. -/
theorem C1_always_prepends_witness :
    updateReleases
        (some (mkPayload "published" "v1" "t2" "bad-ts" "bad-ts" "dup-body"))
        (storeWith [relV1])
      = .ret (true, none,
          storeWith [mkWebhookRelease "v1" "t2" "bad-ts" "dup-body", relV1]) ∧
    [mkWebhookRelease "v1" "t2" "bad-ts" "dup-body", relV1].length
      = [relV1].length + 1 :=
  C1_always_prepends _ _ "v1" "t2" "bad-ts" "dup-body" [relV1]
    ⟨rfl, _, rfl, rfl, rfl, rfl, rfl⟩ rfl

/-- C2. The claim: ingest accepts exactly the actions `"published"`
and `"edited"`. The code compares against the single constant
`ActionPublished`: a well-formed `"edited"` event is rejected with
`(false, nil)` and the cache is left untouched, so `"edited"` is not
accepted. -/
theorem C2_counterexample :
    jlookup (mkPayload "edited" "v1" "t1" "2024-01-02T03:04:05.000Z"
        "2024-01-02T03:04:05.000Z" "b") "action"
      = some (.str "edited") ∧
    updateReleases
        (some (mkPayload "edited" "v1" "t1" "2024-01-02T03:04:05.000Z"
          "2024-01-02T03:04:05.000Z" "b"))
        (storeWith [relV1])
      = .ret (false, none, storeWith [relV1]) :=
  ⟨rfl, rfl⟩

/-- C2 (amended). Ingest accepts exactly the action `"published"`: any
payload whose `action` field is a string different from `"published"`
— `"edited"` included — returns `(false, nil)` with the cache
untouched, and a well-formed `"published"` payload is accepted. -/
theorem C2_only_published_accepted (m : Jmap) (s : StoreVal) (a : String)
    (ha : jlookup m "action" = some (.str a)) (hne : a ≠ "published") :
    updateReleases (some m) s = .ret (false, none, s) := by
  simp only [updateReleases, ha, asString]
  rw [if_pos hne]

/-- C2 witness: a well-formed `"edited"` event against an absent cache
is a no-op returning `(false, nil)`. -/
theorem C2_only_published_accepted_witness :
    updateReleases
        (some (mkPayload "edited" "v2" "t2" "ts" "ts" "b2")) .nilVal
      = .ret (false, none, .nilVal) :=
  C2_only_published_accepted _ .nilVal "edited" rfl (by decide)

/-- C10. For well-formed JSON whose shape deviates from the expected
one, `UpdateReleases` does not return: an absent or non-string
`action`, an absent or non-object `release`, or an absent/ill-typed
`name`, `tag_name`, `created_at` or `body` each hits an unchecked type
assertion and panics, regardless of the cache state — while a payload
that fails to decode at all gets the decode error `(false, err)`. -/
theorem C10_malformed_shape_panics (s : StoreVal) :
    updateReleases (some ([] : Jmap)) s = .panicked ∧
    updateReleases (some [("action", .num 3)]) s = .panicked ∧
    updateReleases (some [("action", .str "published")]) s = .panicked ∧
    updateReleases
        (some [("action", .str "published"), ("release", .str "x")]) s
      = .panicked ∧
    updateReleases
        (some [("action", .str "published"), ("release", .obj [])]) s
      = .panicked ∧
    updateReleases
        (some [("action", .str "published"),
               ("release", .obj [("name", .str "n")])]) s
      = .panicked ∧
    updateReleases
        (some [("action", .str "published"),
               ("release", .obj [("name", .str "n"),
                                 ("tag_name", .str "t"),
                                 ("created_at", .num 7)])]) s
      = .panicked ∧
    updateReleases
        (some [("action", .str "published"),
               ("release", .obj [("name", .str "n"),
                                 ("tag_name", .str "t"),
                                 ("created_at", .str "c")])]) s
      = .panicked ∧
    updateReleases none s = .ret (false, some "json unmarshal error", s) :=
  ⟨rfl, rfl, rfl, rfl, rfl, rfl, rfl, rfl, rfl⟩

/-- C4. The claim: every Release built by the fetch mapping or by
webhook ingestion has `prerequisite` true iff the body contains the
delimiter marker (with `prerequisiteMessage` extracted between its
first and last occurrence). No choice of marker makes this true of the
code: the mapping sets neither field, so a remote record whose body is
the marker itself contains the marker yet is mapped with
`prerequisite = false`. -/
theorem C4_counterexample :
    ¬ ∃ marker : String, ∀ rr : RemoteRelease,
        (toDto rr).prerequisite = occursIn marker rr.body := by
  rintro ⟨marker, h⟩
  have hm := h ⟨"t", "n", marker, GoTime.zero, GoTime.zero⟩
  rw [occursIn_self] at hm
  exact Bool.false_ne_true hm

/-- C4 (amended). No prerequisite extraction is performed anywhere:
both the remote-fetch mapping and the webhook build leave
`prerequisite = false` and `prerequisiteMessage = ""` on every Release
they produce, whatever the body contains. -/
theorem C4_no_prerequisite_extraction (rr : RemoteRelease)
    (name tag created body : String) :
    (toDto rr).prerequisite = false ∧
    (toDto rr).prerequisiteMessage = "" ∧
    (mkWebhookRelease name tag created body).prerequisite = false ∧
    (mkWebhookRelease name tag created body).prerequisiteMessage = "" :=
  ⟨rfl, rfl, rfl, rfl⟩

/-- C5. The claim: every produced Release has `tagLink` equal to a
fixed base URL concatenated with its `tagName`. No choice of base makes
this true: the mapping leaves `tagLink` at the empty string, which for
a non-empty `tagName` cannot equal `base ++ tagName`. -/
theorem C5_counterexample :
    ¬ ∃ base : String, ∀ rr : RemoteRelease,
        (toDto rr).tagLink = base ++ rr.tagName := by
  rintro ⟨base, h⟩
  have hx := h ⟨"x", "n", "b", GoTime.zero, GoTime.zero⟩
  have hlen := congrArg String.length hx
  rw [String.length_append] at hlen
  simp [toDto] at hlen
  have hone : "x".length = 1 := rfl
  rw [hone] at hlen
  omega

/-- C5 (amended). `tagLink` is never derived: both the remote-fetch
mapping and the webhook build leave it at the empty string. -/
theorem C5_tagLink_left_empty (rr : RemoteRelease)
    (name tag created body : String) :
    (toDto rr).tagLink = "" ∧
    (mkWebhookRelease name tag created body).tagLink = "" :=
  ⟨rfl, rfl⟩

/-- C6. The claim: on a cache type-check failure both entry points
treat the cache as empty and continue (ingest still writes, the query
still fetches). The code instead aborts both: a well-formed
`"published"` event against a non-item-map cache returns `(false, nil)`
without writing, and `GetReleases` returns the nil list and nil error
without a single client call — even with a client that would succeed. -/
theorem C6_counterexample :
    updateReleases
        (some (mkPayload "published" "v6" "t6" "ts" "ts" "b6")) .notItemMap
      = .ret (false, none, .notItemMap) ∧
    getReleases .notItemMap (fun _ => .ok [rr1])
      = .ret ⟨none, none, .notItemMap, 0⟩ :=
  ⟨rfl, rfl⟩

/-- C6 (amended). A failed `map[string]cache.Item` assertion makes both
entry points return early as a logged no-op rather than treat the cache
as empty: ingest returns `(false, nil)` with the store unmodified and
no release written; `GetReleases` returns `(nil, nil)` with no remote
call and no store change. -/
theorem C6_assert_failure_aborts (m : Jmap) (s : StoreVal)
    (name tag created body : String)
    (fetch : Nat → Except String (List RemoteRelease))
    (h : wellFormedRelease m name tag created body)
    (hs : readCache s = .assertFail) :
    updateReleases (some m) s = .ret (false, none, s) ∧
    getReleases s fetch = .ret ⟨none, none, s, 0⟩ := by
  refine ⟨updateReleases_assertFail m s name tag created body h hs, ?_⟩
  unfold getReleases
  rw [hs]

/-- C6 witness: the no-op behaviour evaluated on the concrete
non-item-map store with an always-succeeding client. -/
theorem C6_assert_failure_aborts_witness :
    updateReleases
        (some (mkPayload "published" "v7" "t7" "ts" "ts" "b7")) .notItemMap
      = .ret (false, none, .notItemMap) ∧
    getReleases .notItemMap (fun _ => .ok []) = .ret ⟨none, none, .notItemMap, 0⟩ :=
  C6_assert_failure_aborts _ .notItemMap "v7" "t7" "ts" "b7" _
    ⟨rfl, _, rfl, rfl, rfl, rfl, rfl⟩ rfl

/-- C9. The claim: both `createdAt` and `publishedAt` are parsed from
the payload. The code never reads `published_at`: on a payload whose
`published_at` is a perfectly parseable timestamp, the stored release
still carries the zero `publishedAt`. -/
theorem C9_counterexample :
    parseGoTime "2024-05-06T07:08:09.100Z" = some ⟨2024, 5, 6, 7, 8, 9, 100⟩ ∧
    updateReleases
        (some (mkPayload "published" "v9" "t9" "2024-01-02T03:04:05.000Z"
          "2024-05-06T07:08:09.100Z" "b9")) .nilVal
      = .ret (true, none,
          storeWith [mkWebhookRelease "v9" "t9" "2024-01-02T03:04:05.000Z" "b9"]) ∧
    (mkWebhookRelease "v9" "t9" "2024-01-02T03:04:05.000Z" "b9").publishedAt
      = GoTime.zero ∧
    GoTime.zero ≠ (⟨2024, 5, 6, 7, 8, 9, 100⟩ : GoTime) :=
  ⟨rfl, rfl, rfl, by decide⟩

/-- C9 (amended). On every accepted webhook event, only `createdAt` is
obtained by parsing the payload's `created_at` against the fixed
format — a parse failure is logged and leaves it at the zero value and
ingestion still completes with `(true, nil)` — while `published_at` is
never read and `publishedAt` always stays at the zero value. -/
theorem C9_only_createdAt_parsed (m : Jmap) (s : StoreVal)
    (name tag created body : String) (rs : List Release)
    (h : wellFormedRelease m name tag created body)
    (hs : writableCache s = some rs) :
    updateReleases (some m) s
      = .ret (true, none,
          storeWith (mkWebhookRelease name tag created body :: rs)) ∧
    (mkWebhookRelease name tag created body).createdAt
      = (parseGoTime created).getD GoTime.zero ∧
    (mkWebhookRelease name tag created body).publishedAt = GoTime.zero :=
  ⟨updateReleases_wellFormed m s name tag created body rs h hs, rfl, rfl⟩

/-- C9 witness: an accepted event with an unparseable `created_at`
(`"31-12-2024"`) still completes with `(true, nil)` and a zero
`createdAt`. -/
theorem C9_only_createdAt_parsed_witness :
    parseGoTime "31-12-2024" = none ∧
    (updateReleases
        (some (mkPayload "published" "v10" "t10" "31-12-2024" "p" "b10")) .nilVal
      = .ret (true, none,
          storeWith [mkWebhookRelease "v10" "t10" "31-12-2024" "b10"]) ∧
    (mkWebhookRelease "v10" "t10" "31-12-2024" "b10").createdAt
      = (parseGoTime "31-12-2024").getD GoTime.zero ∧
    (mkWebhookRelease "v10" "t10" "31-12-2024" "b10").publishedAt = GoTime.zero) :=
  ⟨rfl, C9_only_createdAt_parsed _ .nilVal "v10" "t10" "31-12-2024" "b10" []
    ⟨rfl, _, rfl, rfl, rfl, rfl, rfl⟩ rfl⟩

theorem getReleases_cold (s : StoreVal)
    (fetch : Nat → Except String (List RemoteRelease))
    (h : isCold s = true) :
    getReleases s fetch = .ret (fetchLoop fetch 3 0 s) := by
  unfold isCold at h
  unfold getReleases
  cases hrc : readCache s <;> rw [hrc] at h <;> simp_all

theorem fetchLoopSucc (fetch : Nat → Except String (List RemoteRelease))
    (fuel calls : Nat) (st : StoreVal) :
    fetchLoop fetch (fuel + 1) calls st =
      match fetch (calls + 1) with
      | .error _ => fetchLoop fetch fuel (calls + 1) st
      | .ok rs =>
          ⟨if (rs.map toDto).isEmpty then none else some (rs.map toDto),
           none, storeWith (rs.map toDto), calls + 1⟩ := by
  rfl

/-- C7. When the cached collection is absent or empty, `GetReleases`
calls the remote `ListReleases` at most 3 times: with errors on all
three attempts it returns the exhausted-retries error after exactly 3
calls; the first attempt that returns no error ends the loop right
after writing the mapped collection to the store, with no further
call. -/
theorem C7_bounded_retry (s : StoreVal)
    (fetch : Nat → Except String (List RemoteRelease))
    (hcold : isCold s = true) :
    (∀ e1 e2 e3, fetch 1 = .error e1 → fetch 2 = .error e2 →
      fetch 3 = .error e3 →
        getReleases s fetch = .ret ⟨none, some exhaustedMsg, s, 3⟩) ∧
    (∀ rs, fetch 1 = .ok rs →
        getReleases s fetch
          = .ret ⟨if (rs.map toDto).isEmpty then none else some (rs.map toDto),
                  none, storeWith (rs.map toDto), 1⟩) ∧
    (∀ e1 rs, fetch 1 = .error e1 → fetch 2 = .ok rs →
        getReleases s fetch
          = .ret ⟨if (rs.map toDto).isEmpty then none else some (rs.map toDto),
                  none, storeWith (rs.map toDto), 2⟩) ∧
    (∀ e1 e2 rs, fetch 1 = .error e1 → fetch 2 = .error e2 →
      fetch 3 = .ok rs →
        getReleases s fetch
          = .ret ⟨if (rs.map toDto).isEmpty then none else some (rs.map toDto),
                  none, storeWith (rs.map toDto), 3⟩) := by
  refine ⟨?_, ?_, ?_, ?_⟩
  · intro e1 e2 e3 h1 h2 h3
    rw [getReleases_cold s fetch hcold]
    simp only [fetchLoopSucc, h1, h2, h3]
    rfl
  · intro rs h1
    rw [getReleases_cold s fetch hcold]
    simp only [fetchLoopSucc, h1]
  · intro e1 rs h1 h2
    rw [getReleases_cold s fetch hcold]
    simp only [fetchLoopSucc, h1, h2]
  · intro e1 e2 rs h1 h2 h3
    rw [getReleases_cold s fetch hcold]
    simp only [fetchLoopSucc, h1, h2, h3]

/-- C7 witness: an absent cache with a client that errors twice and
succeeds on the third attempt yields the mapped collection, no error,
a populated store, exactly 3 calls; the all-errors client yields the
exhausted-retries error after 3 calls. -/
theorem C7_bounded_retry_witness :
    getReleases .nilVal
        (fun n => if n == 3 then .ok [rr1] else .error "boom")
      = .ret ⟨some [toDto rr1], none, storeWith [toDto rr1], 3⟩ ∧
    getReleases .nilVal (fun _ => .error "down")
      = .ret ⟨none, some exhaustedMsg, .nilVal, 3⟩ :=
  ⟨(C7_bounded_retry .nilVal _ rfl).2.2.2 "boom" "boom" [rr1] rfl rfl rfl,
   (C7_bounded_retry .nilVal _ rfl).1 "down" "down" "down" rfl rfl rfl⟩

/-- C8. Whenever the store holds a non-empty release collection,
`GetReleases` returns exactly that collection with a nil error, makes
no call to the remote client, and leaves the store unchanged. -/
theorem C8_cache_hit (s : StoreVal) (rs : List Release)
    (fetch : Nat → Except String (List RemoteRelease))
    (h : readCache s = .releases rs) (hne : rs ≠ []) :
    getReleases s fetch = .ret ⟨some rs, none, s, 0⟩ := by
  unfold getReleases
  rw [h]
  simp [List.isEmpty_iff, hne]

/-- C8 witness: a store holding the one-element collection `[relV1]`
is returned as-is, with no client call, even against a client that
would return something else. -/
theorem C8_cache_hit_witness :
    getReleases (storeWith [relV1]) (fun _ => .ok [rr1])
      = .ret ⟨some [relV1], none, storeWith [relV1], 0⟩ :=
  C8_cache_hit (storeWith [relV1]) [relV1] _ rfl (by decide)

/-- C3. The claim: each path's read-compute-write runs as one critical
section under the process-wide lock, so no interleaving of a concurrent
fetch and webhook ingestion loses either update. In the code the
`mutex.Lock()` sits only in front of `UpdateReleaseCache`; the cache
read and the computation run outside it. `schedLost` is a valid
interleaving of the two paths' atomic actions (each `lock` finds the
mutex free, so the run completes) in which the webhook thread's write
lands first and the fetch thread then writes back the collection
computed from its stale read: the final cache no longer contains the
webhook release. -/
theorem C3_counterexample :
    isInterleaving schedLost relWh [rr1] ∧
    crun concInit schedLost
      = some ⟨some [toDto rr1], false, [relWh], [toDto rr1], true⟩ ∧
    relWh ∉ [toDto rr1] :=
  ⟨⟨rfl, rfl⟩, rfl, by decide⟩

/-- C3 (amended). The lock guards only the final `UpdateReleaseCache`
call of each path; the cache read and the computation happen before it
is taken, so lost updates are possible: there is a mutual-exclusion-
respecting interleaving of a concurrent cold fetch and webhook
ingestion that runs to completion with the mutex released, in which the
webhook thread completed its locked write and yet its release is
missing from the final cache. -/
theorem C3_lock_spans_write_only :
    ∃ sched : List CInstr, isInterleaving sched relWh [rr1] ∧
      ∃ fin : ConcState, crun concInit sched = some fin ∧
        fin.lockHeld = false ∧
        fin.cache = some [toDto rr1] ∧
        relWh ∉ [toDto rr1] :=
  ⟨schedLost, ⟨rfl, rfl⟩,
   ⟨some [toDto rr1], false, [relWh], [toDto rr1], true⟩,
   rfl, rfl, rfl, by decide⟩
